import Mathlib

/-!
Verification development for the TextAnalyser NLP Flask service (`app.py`).

The service exposes `POST /analyze`, which validates the request body and then
runs four analyzers (TextBlob sentiment, spaCy NER, NRCLex emotions, and a
word-frequency extractive summarizer written inline in `analyze_text`).

Shallow embedding conventions:
* The external NLP libraries (TextBlob, spaCy's model, NRCLex) are opaque
  collaborators.  Their per-request outcomes are captured in an `Env` record:
  each library call either returns a value (`Except.ok`) or raises
  (`Except.error msg`).  `nlpAvailable` models `nlp is not None`.
* A spaCy document is modelled as the list of its sentences, each carrying its
  token list and its surface text (`Span.text`); iterating the whole `doc`
  corresponds to flattening the sentences.
* Python floats (polarity scores, normalized frequencies) are modelled as `ℚ`.
  `int(n * 0.3)` is modelled as `3 * n / 10` (floor), the value the source's
  comment "top 30% of sentences" intends and which `int(n*0.3)` computes for
  the document sizes considered here.
* JSON bodies are modelled as an optional association list of string keys to
  JSON values (`none` = absent/null body); `JVal` distinguishes string values
  from non-string ones so that the dynamic failure of `text.strip()` on a
  non-string is representable.
* Python dicts preserve insertion order; they are modelled as association
  lists built in insertion order.  `heapq.nlargest(k, d, key=d.get)` is
  documented as `sorted(d, key=d.get, reverse=True)[:k]`, a stable descending
  sort followed by `take k`; it is modelled by the stable insertion sort
  `sortDesc` below.
-/

/-- A JSON value as far as the endpoint inspects it.  Only whether the value
is a string matters to the control flow (`text.strip()` raises
`AttributeError` on every non-string). -/
inductive JVal where
  | jstr (s : String)
  | jnum (n : Int)
  | jbool (b : Bool)
  | jnull
  deriving DecidableEq, Repr

/-- Whether a JSON value is a string. -/
def JVal.isStr : JVal → Bool
  | .jstr _ => true
  | _ => false

/-- The Python type name of a JSON value, used to model the text of the
`AttributeError` raised by `value.strip()` on a non-string. -/
def pyTypeName : JVal → String
  | .jstr _ => "str"
  | .jnum _ => "int"
  | .jbool _ => "bool"
  | .jnull => "NoneType"

/-- Models `str(e)` for the `AttributeError` raised by `text.strip()` when
`text` is not a string. -/
def strNoAttrMsg (v : JVal) : String :=
  pyTypeName v ++ " object has no attribute strip"

/-- Association-list lookup in insertion order: `data['text']` /
`'text' in data` on a Python dict. -/
def alookup {α : Type} (w : String) : List (String × α) → Option α
  | [] => none
  | (k, v) :: rest => if k = w then some v else alookup w rest

/-- A spaCy sentence span: its tokens (each token's `.text`) and the
sentence's surface text (`Span.text`). -/
structure Sentence where
  toks : List String
  text : String
  deriving DecidableEq, Repr

/-- A spaCy named entity, `{'text': ent.text, 'label': ent.label_}`. -/
structure Entity where
  text : String
  label : String
  deriving DecidableEq, Repr

/-- Iterating `for word in doc` yields every token of every sentence in
order. -/
def allToks (doc : List Sentence) : List String :=
  (doc.map Sentence.toks).flatten

/-- Python's `string.punctuation`:
the 32 ASCII characters between codepoints 33 and 126 that are neither
letters nor digits, listed here by codepoint. -/
def punctChars : List Char :=
  [33, 34, 35, 36, 37, 38, 39, 40, 41, 42, 43, 44, 45, 46, 47,
   58, 59, 60, 61, 62, 63, 64,
   91, 92, 93, 94, 95, 96,
   123, 124, 125, 126].map Char.ofNat

/-- Python `s.lower()` (ASCII case folding suffices for this model). -/
def strLower (s : String) : String :=
  ⟨s.data.map Char.toLower⟩

/-- The whitespace characters `str.strip()` removes: space, tab, newline,
carriage return, vertical tab, form feed. -/
def isSpaceChar (c : Char) : Bool :=
  c = ' ' || c = '\t' || c = '\n' || c = '\r' || c = Char.ofNat 11 || c = Char.ofNat 12

/-- Python `s.strip()`: drop leading and trailing whitespace. -/
def pyStrip (s : String) : String :=
  ⟨((s.data.dropWhile isSpaceChar).reverse.dropWhile isSpaceChar).reverse⟩

/-- Python `sep.join(xs)`. -/
def joinSep (sep : String) : List String → String
  | [] => ""
  | [x] => x
  | x :: xs => x ++ sep ++ joinSep sep xs

/-- Whether the first list is a leading segment of the second. -/
def leadMatch : List Char → List Char → Bool
  | [], _ => true
  | _ :: _, [] => false
  | a :: as, b :: bs => a = b && leadMatch as bs

/-- Whether the first list occurs contiguously inside the second. -/
def subMatch (pat : List Char) : List Char → Bool
  | [] => pat.isEmpty
  | c :: rest => leadMatch pat (c :: rest) || subMatch pat rest

/-- Python `s in string.punctuation`: substring membership in the punctuation
string. -/
def inPunct (s : String) : Bool :=
  subMatch s.toList punctChars

/-- The filter on line 160 of `app.py`:
`word.text.lower() not in stopwords and word.text.lower() not in punctuation`.
Note both membership tests use the lowercased token. -/
def keepWord (st : List String) (w : String) : Bool :=
  !(st.contains (strLower w)) && !(inPunct (strLower w))

/-- One iteration of the counting loop body (lines 161-164): insert the key
with count 1 if absent, else increment in place.  The key is `word.text`,
the original casing. -/
def bump (w : String) : List (String × Nat) → List (String × Nat)
  | [] => [(w, 1)]
  | (k, v) :: rest => if k = w then (k, v + 1) :: rest else (k, v) :: bump w rest

/-- One iteration of the counting loop (lines 159-164): skip filtered
tokens, otherwise insert or increment. -/
def countStep (st : List String) (acc : List (String × Nat)) (w : String) :
    List (String × Nat) :=
  if keepWord st w then bump w acc else acc

/-- The `word_frequencies` dict after the counting loop (lines 158-164):
fold over all tokens of the document, keeping only tokens whose lowercase
form is neither a stop word nor a punctuation substring, keyed by the
token's original casing. -/
def wordFrequencies (st : List String) (doc : List Sentence) : List (String × Nat) :=
  (allToks doc).foldl (countStep st) []

/-- `max(word_frequencies.values()) if word_frequencies else 0`
(line 167). -/
def maxFrequency (wf : List (String × Nat)) : Nat :=
  wf.foldl (fun m p => Nat.max m p.2) 0

/-- Exact rational division of a count by the maximum count.  `mkRat a b` is
the rational `a / b`; see `ratDiv_eq` below.  (`mkRat` is used rather than
`/` so that concrete instances evaluate inside the kernel.) -/
def ratDiv (a b : Nat) : ℚ :=
  mkRat a b

/-- Exact rational addition; equal to `+` by `ratAdd_eq` below.  (Spelled
out via `mkRat` so that concrete instances evaluate inside the kernel.) -/
def ratAdd (a b : ℚ) : ℚ :=
  mkRat (a.num * b.den + b.num * a.den) (a.den * b.den)

/-- The normalization loop (lines 168-170): divide every count by the
maximum when it is positive, leaving the keys untouched. -/
def normFreqs (st : List String) (doc : List Sentence) : List (String × ℚ) :=
  let wf := wordFrequencies st doc
  let m := maxFrequency wf
  wf.map (fun p => (p.1, if 0 < m then ratDiv p.2 m else (p.2 : ℚ)))

/-- The inner scoring loop for one sentence (lines 176-181): fold over the
sentence's tokens; on each token whose lowercased form is a key of the
frequency table, create the sentence's entry with that frequency or add the
frequency to the existing entry.  `none` means the sentence never entered
`sentence_scores`. -/
def scoreStep (freqs : List (String × ℚ)) (acc : Option ℚ) (w : String) : Option ℚ :=
  match alookup (strLower w) freqs with
  | none => acc
  | some q =>
    match acc with
    | none => some q
    | some s => some (ratAdd s q)

/-- The score a sentence ends up with after the inner loop, `none` when no
token of the sentence hits the frequency table. -/
def sentScore (freqs : List (String × ℚ)) (toks : List String) : Option ℚ :=
  toks.foldl (scoreStep freqs) none

/-- The `sentence_scores` dict (lines 173-181), keyed by sentence position:
sentences are processed in document order and a sentence's entry is created
at its first scoring token, so the dict's insertion order lists exactly the
scoring sentences in document order.  `n` is the position of the first
sentence of the remaining list. -/
def scoresFrom (freqs : List (String × ℚ)) (n : Nat) : List Sentence → List (Nat × ℚ)
  | [] => []
  | s :: rest =>
    match sentScore freqs s.toks with
    | none => scoresFrom freqs (n + 1) rest
    | some q => (n, q) :: scoresFrom freqs (n + 1) rest

/-- `sentence_scores` for a whole document. -/
def sentenceScores (st : List String) (doc : List Sentence) : List (Nat × ℚ) :=
  scoresFrom (normFreqs st doc) 0 doc

/-- `select_length = max(int(len(sentence_tokens) * 0.3), 1)`
(lines 184-186), with `int(n * 0.3)` modelled as `⌊3n/10⌋`. -/
def selectLength (n : Nat) : Nat :=
  Nat.max (3 * n / 10) 1

/-- Stable descending insertion by score: a new element goes after every
element already placed whose score is at least its own, which is exactly the
tie behaviour of `sorted(..., reverse=True)` / `heapq.nlargest`. -/
def insertDesc (x : Nat × ℚ) : List (Nat × ℚ) → List (Nat × ℚ)
  | [] => [x]
  | y :: ys => if y.2 < x.2 then x :: y :: ys else y :: insertDesc x ys

/-- Stable descending sort by score of the `sentence_scores` entries. -/
def sortDesc (l : List (Nat × ℚ)) : List (Nat × ℚ) :=
  l.foldl (fun acc x => insertDesc x acc) []

/-- `nlargest(select_length, sentence_scores, key=sentence_scores.get)`
(line 188), keeping the scores alongside the selected sentence positions. -/
def selectedScores (st : List String) (doc : List Sentence) : List (Nat × ℚ) :=
  (sortDesc (sentenceScores st doc)).take (selectLength doc.length)

/-- The positions (document order indices) of the selected sentences, in
selection order. -/
def selectedIndices (st : List String) (doc : List Sentence) : List Nat :=
  (selectedScores st doc).map Prod.fst

/-- Placeholder sentence for index recovery; selected indices are proved to
be in range, so it is never actually produced. -/
def defaultSentence : Sentence :=
  ⟨[], ""⟩

/-- Lines 189-190: `" ".join(sent.text for sent in summary_sentences)`, in
the order `nlargest` returned them. -/
def summarize (st : List String) (doc : List Sentence) : String :=
  joinSep " " ((selectedIndices st doc).map (fun i => (doc.getD i defaultSentence).text))

/-- Whether a sentence contains at least one token whose lowercased form is
a key of the frequency table — exactly the sentences that receive an entry
in `sentence_scores`. -/
def scoringSentence (freqs : List (String × ℚ)) (s : Sentence) : Bool :=
  s.toks.any (fun w => (alookup (strLower w) freqs).isSome)

/-- Sentiment payload `{'label': ..., 'score': ...}`. -/
structure SentimentOut where
  label : String
  score : ℚ
  deriving DecidableEq, Repr

/-- The aggregated response body built by `analyze_text`; `warnings = none`
models the key being deleted when the list is empty (lines 200-201). -/
structure ResponseData where
  sentiment : SentimentOut
  entities : List Entity
  emotions : List (String × Nat)
  summary : String
  warnings : Option (List String)
  deriving DecidableEq, Repr

/-- The three HTTP outcomes of `analyze_text`: 200 with a body, 400 with an
error message, 500 with an error message. -/
inductive HttpResponse where
  | ok (r : ResponseData)
  | badRequest (error : String)
  | serverError (error : String)
  deriving DecidableEq, Repr

/-- Per-request outcomes of the opaque external libraries, plus the process
state `nlp is not None` and the model's stop-word list. -/
structure Env where
  nlpAvailable : Bool
  sentimentRes : Except String ℚ
  nerRes : Except String (List Entity)
  emotionRes : Except String (List (String × Nat))
  sumDocRes : Except String (List Sentence)
  stopwords : List String

/-- Whether an `Except` is an error. -/
def isErr {ε α : Type} : Except ε α → Bool
  | .error _ => true
  | .ok _ => false

/-- The threshold mapping of lines 114-119: polarity above 0.1 is Positive,
below -0.1 is Negative, otherwise Neutral. -/
def sentimentLabel (p : ℚ) : String :=
  if p > 1 / 10 then "Positive"
  else if p < -(1 / 10) then "Negative"
  else "Neutral"

/-- Sentiment analyzer block (lines 110-127): on success the label/score
pair, on exception the defaults plus a warning. -/
def sentimentPart (env : Env) : SentimentOut × List String :=
  match env.sentimentRes with
  | .ok p => (⟨sentimentLabel p, p⟩, [])
  | .error e => (⟨"Unknown", 0⟩, ["Sentiment analysis failed: " ++ e])

/-- NER block (lines 129-139): requires the model; on exception or absence
the default empty list plus a warning. -/
def nerPart (env : Env) : List Entity × List String :=
  if env.nlpAvailable then
    match env.nerRes with
    | .ok es => (es, [])
    | .error e => ([], ["Named Entity Recognition failed: " ++ e])
  else ([], ["spaCy model not available - NER disabled"])

/-- Emotion block (lines 141-148): raw NRCLex scores or a warning. -/
def emotionPart (env : Env) : List (String × Nat) × List String :=
  match env.emotionRes with
  | .ok m => (m, [])
  | .error e => ([], ["Emotion analysis failed: " ++ e])

/-- Summarization block (lines 150-197): requires the model; `nlp(text)`
may itself raise, in which case the summary stays at its default empty
string and a warning is recorded. -/
def summaryPart (env : Env) : String × List String :=
  if env.nlpAvailable then
    match env.sumDocRes with
    | .ok doc => (summarize env.stopwords doc, [])
    | .error e => ("", ["Text summarization failed: " ++ e])
  else ("", ["spaCy model not available - summarization disabled"])

/-- The warnings accumulated across the four blocks, in source order. -/
def warningsList (env : Env) : List String :=
  (sentimentPart env).2 ++ (nerPart env).2 ++ (emotionPart env).2 ++ (summaryPart env).2

/-- The response body assembled by `analyze_text` for a validated text:
each field from its own block, and the `warnings` key deleted when the list
is empty. -/
def buildResponse (env : Env) : ResponseData :=
  { sentiment := (sentimentPart env).1
    entities := (nerPart env).1
    emotions := (emotionPart env).1
    summary := (summaryPart env).1
    warnings := if warningsList env = [] then none else some (warningsList env) }

/-- Whether at least one analyzer failed or was disabled on this request. -/
def someIssue (env : Env) : Bool :=
  isErr env.sentimentRes
    || !env.nlpAvailable
    || (env.nlpAvailable && isErr env.nerRes)
    || isErr env.emotionRes
    || (env.nlpAvailable && isErr env.sumDocRes)

/-- The `POST /analyze` handler (lines 92-207).  The body is `none` when
`request.get_json()` produced no object.  Validation: missing/empty body or
missing key give 400 "No text provided"; a string value that is blank after
trimming gives 400 "Empty text provided"; a non-string value makes
`text.strip()` raise, which the outermost handler converts to a 500.
Otherwise the four analyzer blocks run and the aggregate is returned with
status 200. -/
def analyzeText (env : Env) (body : Option (List (String × JVal))) : HttpResponse :=
  match body with
  | none => .badRequest "No text provided"
  | some data =>
    if data.isEmpty then .badRequest "No text provided"
    else
      match alookup "text" data with
      | none => .badRequest "No text provided"
      | some (.jstr text) =>
        if pyStrip text = "" then .badRequest "Empty text provided"
        else .ok (buildResponse env)
      | some v => .serverError ("Internal server error: " ++ strNoAttrMsg v)

/-- A one-sentence document whose only word is a stop word: the sentence
never enters `sentence_scores`. -/
def stopOnlyDoc : List Sentence :=
  [⟨["the", "."], "the."⟩]

/-- A seven-sentence document: sentences A-F each contribute one occurrence
of the word x, sentence G contributes two, so G outscores the others. -/
def docSeven : List Sentence :=
  [⟨["x"], "A"⟩, ⟨["x"], "B"⟩, ⟨["x"], "C"⟩, ⟨["x"], "D"⟩,
   ⟨["x"], "E"⟩, ⟨["x"], "F"⟩, ⟨["x", "x"], "G"⟩]

/-- A one-sentence document containing the same word in two casings. -/
def twoCaseDoc : List Sentence :=
  [⟨["Apple", "apple"], "Apple apple"⟩]

/-- An environment where the model is loaded and every analyzer succeeds
with an empty result. -/
def envOk : Env :=
  ⟨true, .ok 0, .ok [], .ok [], .ok [], []⟩

/-- An environment where the model is loaded but all four analyzers
raise. -/
def envAllFail : Env :=
  ⟨true, .error "sfail", .error "nfail", .error "efail", .error "dfail", []⟩

/-- An environment where the spaCy model failed to load. -/
def envNoModel : Env :=
  ⟨false, .ok 0, .ok [], .ok [], .ok [], []⟩

/-- An environment whose sentiment polarity is one half. -/
def envHalf : Env :=
  ⟨true, .ok (1 / 2), .ok [], .ok [], .ok [], []⟩

/-! ## Bridge lemmas

`ratAdd` and `ratDiv` are the kernel-evaluable spellings of rational `+`
and `/`; these lemmas certify that the model's arithmetic is ordinary
rational arithmetic. -/

theorem ratAdd_eq (a b : ℚ) : ratAdd a b = a + b :=
  (Rat.add_def' a b).symm

theorem ratDiv_eq (a b : Nat) : ratDiv a b = (a : ℚ) / (b : ℚ) := by
  rw [ratDiv, Rat.mkRat_eq_div]
  push_cast
  ring

/-! ## Sorting lemmas for the `nlargest` model -/

theorem length_insertDesc (x : Nat × ℚ) (l : List (Nat × ℚ)) :
    (insertDesc x l).length = l.length + 1 := by
  induction l with
  | nil => rfl
  | cons y ys ih =>
    by_cases h : y.2 < x.2 <;> simp [insertDesc, h, ih]

theorem perm_insertDesc (x : Nat × ℚ) (l : List (Nat × ℚ)) :
    (insertDesc x l).Perm (x :: l) := by
  induction l with
  | nil => exact List.Perm.refl _
  | cons y ys ih =>
    by_cases h : y.2 < x.2
    · simp [insertDesc, h]
    · simp only [insertDesc, if_neg h]
      exact (ih.cons y).trans (List.Perm.swap x y ys)

theorem sortDesc_perm_aux (l acc : List (Nat × ℚ)) :
    (l.foldl (fun a x => insertDesc x a) acc).Perm (acc ++ l) := by
  induction l generalizing acc with
  | nil => simp
  | cons x xs ih =>
    have h1 := ih (insertDesc x acc)
    have h2 : (insertDesc x acc ++ xs).Perm ((x :: acc) ++ xs) :=
      (perm_insertDesc x acc).append_right xs
    have h3 : ((x :: acc) ++ xs).Perm (acc ++ x :: xs) := List.perm_middle.symm
    exact (h1.trans h2).trans h3

theorem sortDesc_perm (l : List (Nat × ℚ)) : (sortDesc l).Perm l :=
  sortDesc_perm_aux l []

theorem length_sortDesc (l : List (Nat × ℚ)) : (sortDesc l).length = l.length :=
  (sortDesc_perm l).length_eq

theorem mem_insertDesc {z x : Nat × ℚ} {l : List (Nat × ℚ)} :
    z ∈ insertDesc x l ↔ z = x ∨ z ∈ l := by
  rw [(perm_insertDesc x l).mem_iff, List.mem_cons]

theorem pairwise_insertDesc {x : Nat × ℚ} {l : List (Nat × ℚ)}
    (h : l.Pairwise (fun a b => b.2 ≤ a.2)) :
    (insertDesc x l).Pairwise (fun a b => b.2 ≤ a.2) := by
  induction l with
  | nil => simp [insertDesc]
  | cons y ys ih =>
    rcases List.pairwise_cons.1 h with ⟨hy, hys⟩
    by_cases hlt : y.2 < x.2
    · rw [insertDesc, if_pos hlt, List.pairwise_cons]
      refine ⟨?_, h⟩
      intro z hz
      rcases List.mem_cons.1 hz with rfl | hz
      · exact le_of_lt hlt
      · exact le_trans (hy z hz) (le_of_lt hlt)
    · rw [insertDesc, if_neg hlt, List.pairwise_cons]
      refine ⟨?_, ih hys⟩
      intro z hz
      rcases mem_insertDesc.1 hz with rfl | hz
      · exact le_of_not_lt hlt
      · exact hy z hz

theorem sortDesc_sorted (l : List (Nat × ℚ)) :
    (sortDesc l).Pairwise (fun a b => b.2 ≤ a.2) := by
  suffices h : ∀ acc : List (Nat × ℚ), acc.Pairwise (fun a b => b.2 ≤ a.2) →
      (l.foldl (fun a x => insertDesc x a) acc).Pairwise (fun a b => b.2 ≤ a.2) from
    h [] (List.Pairwise.nil)
  induction l with
  | nil => intro acc hacc; exact hacc
  | cons x xs ih =>
    intro acc hacc
    exact ih (insertDesc x acc) (pairwise_insertDesc hacc)


/-! ## Lemmas about `sentence_scores` -/

theorem sentScore_fold_isSome (f : List (String × ℚ)) :
    ∀ (toks : List String) (acc : Option ℚ),
    (toks.foldl (scoreStep f) acc).isSome
      = (acc.isSome || toks.any (fun w => (alookup (strLower w) f).isSome)) := by
  intro toks
  induction toks with
  | nil => intro acc; simp
  | cons t ts ih =>
    intro acc
    rw [List.foldl_cons, ih]
    cases hl : alookup (strLower t) f with
    | none => cases acc <;> simp [scoreStep, hl]
    | some q => cases acc <;> simp [scoreStep, hl]

theorem sentScore_isSome (f : List (String × ℚ)) (s : Sentence) :
    (sentScore f s.toks).isSome = scoringSentence f s := by
  rw [sentScore, sentScore_fold_isSome, scoringSentence]
  simp

theorem mem_scoresFrom {f : List (String × ℚ)} :
    ∀ {l : List Sentence} {n : Nat} {p : Nat × ℚ}, p ∈ scoresFrom f n l →
      n ≤ p.1 ∧ p.1 < n + l.length := by
  intro l
  induction l with
  | nil => intro n p h; simp [scoresFrom] at h
  | cons s rest ih =>
    intro n p h
    rw [scoresFrom] at h
    cases hs : sentScore f s.toks with
    | none =>
      rw [hs] at h
      rcases ih h with ⟨h1, h2⟩
      constructor
      · omega
      · simp only [List.length_cons]
        omega
    | some q =>
      rw [hs] at h
      rcases List.mem_cons.1 h with rfl | h
      · simp
      · rcases ih h with ⟨h1, h2⟩
        constructor
        · omega
        · simp only [List.length_cons]
          omega

theorem length_scoresFrom (f : List (String × ℚ)) :
    ∀ (l : List Sentence) (n : Nat),
    (scoresFrom f n l).length = l.countP (fun s => scoringSentence f s) := by
  intro l
  induction l with
  | nil => intro n; simp [scoresFrom]
  | cons s rest ih =>
    intro n
    rw [scoresFrom, List.countP_cons]
    have hsc := sentScore_isSome f s
    cases hs : sentScore f s.toks with
    | none =>
      rw [hs] at hsc
      simp only [Option.isSome_none] at hsc
      simp [ih, ← hsc]
    | some q =>
      rw [hs] at hsc
      simp only [Option.isSome_some] at hsc
      simp [ih, ← hsc]

theorem pairwise_scoresFrom (f : List (String × ℚ)) :
    ∀ (l : List Sentence) (n : Nat),
    (scoresFrom f n l).Pairwise (fun a b => a.1 < b.1) := by
  intro l
  induction l with
  | nil => intro n; simp [scoresFrom]
  | cons s rest ih =>
    intro n
    rw [scoresFrom]
    cases hs : sentScore f s.toks with
    | none => exact ih (n + 1)
    | some q =>
      rw [List.pairwise_cons]
      refine ⟨?_, ih (n + 1)⟩
      intro p hp
      have := (mem_scoresFrom hp).1
      omega

/-! ## Lemmas about `word_frequencies` -/

theorem alookup_bump_self (w : String) :
    ∀ acc : List (String × Nat),
    alookup w (bump w acc) = some ((alookup w acc).getD 0 + 1) := by
  intro acc
  induction acc with
  | nil => simp [bump, alookup]
  | cons p rest ih =>
    by_cases h : p.1 = w
    · simp [bump, alookup, h]
    · simp [bump, alookup, h, ih]

theorem alookup_bump_ne {t w : String} (h : t ≠ w) :
    ∀ acc : List (String × Nat), alookup w (bump t acc) = alookup w acc := by
  intro acc
  induction acc with
  | nil => simp [bump, alookup, h]
  | cons p rest ih =>
    by_cases hp : p.1 = t
    · simp [bump, alookup, hp, h]
    · by_cases hw : p.1 = w
      · simp [bump, alookup, hp, hw, Ne.symm h]
      · simp [bump, alookup, hp, hw, ih]

theorem wf_fold_alookup (st : List String) (w : String) :
    ∀ (toks : List String) (acc : List (String × Nat)),
    alookup w (toks.foldl (countStep st) acc)
      = if keepWord st w = true then
          (match alookup w acc with
           | some c => some (c + (toks.filter (keepWord st)).count w)
           | none =>
             if (toks.filter (keepWord st)).count w = 0 then none
             else some ((toks.filter (keepWord st)).count w))
        else alookup w acc := by
  intro toks
  induction toks with
  | nil =>
    intro acc
    by_cases hw : keepWord st w = true
    · cases hacc : alookup w acc <;> simp [hw, hacc]
    · simp [hw]
  | cons t ts ih =>
    intro acc
    rw [List.foldl_cons]
    by_cases hk : keepWord st t = true
    · by_cases htw : t = w
      · subst htw
        rw [countStep, if_pos hk, ih (bump t acc)]
        rw [if_pos hk, alookup_bump_self]
        cases hacc : alookup t acc with
        | none =>
          simp [hacc, List.filter_cons, hk, List.count_cons_self, Nat.add_comm]
        | some c =>
          simp only [hacc, Option.getD_some, List.filter_cons, hk, if_true,
            List.count_cons_self]
          have : c + 1 + (List.count t (ts.filter (keepWord st)))
              = c + (List.count t (ts.filter (keepWord st)) + 1) := by omega
          simp [this]
      · rw [countStep, if_pos hk, ih (bump t acc)]
        rw [alookup_bump_ne htw]
        simp only [List.filter_cons, hk, if_true,
          List.count_cons_of_ne (fun hh => htw hh.symm)]
    · rw [countStep, if_neg hk, ih acc]
      rw [List.filter_cons, if_neg hk]

/-! ## Response assembly lemmas -/

theorem buildResponse_warnings (env : Env) :
    (buildResponse env).warnings = if warningsList env = [] then none
      else some (warningsList env) := rfl

theorem warnings_iff_someIssue (env : Env) :
    (buildResponse env).warnings ≠ none ↔ someIssue env = true := by
  obtain ⟨na, se, ner, emo, sd, sw⟩ := env
  cases se <;> cases ner <;> cases emo <;> cases sd <;> cases na <;>
    simp [buildResponse, warningsList, sentimentPart, nerPart, emotionPart,
      summaryPart, someIssue, isErr]

theorem sentimentLabel_spec (p : ℚ) :
    (sentimentLabel p = "Positive" ↔ 1 / 10 < p)
    ∧ (sentimentLabel p = "Negative" ↔ p < -(1 / 10))
    ∧ (sentimentLabel p = "Neutral" ↔ (-(1 / 10) ≤ p ∧ p ≤ 1 / 10)) := by
  unfold sentimentLabel
  split_ifs with h1 h2 <;>
    refine ⟨⟨fun hh => ?_, fun hh => ?_⟩, ⟨fun hh => ?_, fun hh => ?_⟩,
      ⟨fun hh => ?_, fun hh => ?_⟩⟩ <;>
    first
      | assumption
      | rfl
      | exact absurd hh (by decide)
      | exact absurd hh h1
      | exact absurd hh h2
      | exact absurd hh (by linarith)
      | exact absurd hh.1 (by linarith)
      | exact absurd hh.2 (by linarith)
      | exact ⟨le_of_not_lt h2, le_of_not_lt h1⟩

/-! ## Claim theorems -/

/-- C1: for `POST /analyze`, a missing body or a body without a `text` key
yields 400 with error `No text provided`; a `text` string that is empty
after trimming yields 400 with error `Empty text provided`.  The result is
the same for every environment `env`, i.e. no analyzer outcome can influence
it — the analyzers are never consulted on these paths. -/
theorem validation_400 (env : Env) :
    (analyzeText env none = .badRequest "No text provided")
    ∧ (∀ data : List (String × JVal), alookup "text" data = none →
        analyzeText env (some data) = .badRequest "No text provided")
    ∧ (∀ (data : List (String × JVal)) (text : String),
        alookup "text" data = some (.jstr text) → pyStrip text = "" →
        analyzeText env (some data) = .badRequest "Empty text provided") := by
  refine ⟨rfl, ?_, ?_⟩
  · intro data h
    cases data with
    | nil => rfl
    | cons p rest => simp [analyzeText, h]
  · intro data text h hstrip
    cases data with
    | nil => simp [alookup] at h
    | cons p rest => simp [analyzeText, h, hstrip]

/-- Witness for C1 at concrete inputs: a body with no `text` key and a body
whose `text` is whitespace-only. -/
theorem validation_400_witness :
    analyzeText envOk none = .badRequest "No text provided"
    ∧ analyzeText envOk (some [("other", .jstr "hi")]) = .badRequest "No text provided"
    ∧ analyzeText envOk (some [("text", .jstr "  ")]) = .badRequest "Empty text provided" :=
  ⟨(validation_400 envOk).1,
   (validation_400 envOk).2.1 [("other", .jstr "hi")] (by decide),
   (validation_400 envOk).2.2 [("text", .jstr "  ")] "  " (by decide) (by decide)⟩

/-- C2: whenever the sentiment library returns polarity `p ∈ [-1, 1]`, the
response's sentiment score is exactly `p` and the label is `Positive` iff
`p > 0.1`, `Negative` iff `p < -0.1`, and `Neutral` otherwise. -/
theorem sentiment_spec (env : Env) (p : ℚ) (hlo : -1 ≤ p) (hhi : p ≤ 1)
    (h : env.sentimentRes = .ok p) :
    ((buildResponse env).sentiment.score = p)
    ∧ ((buildResponse env).sentiment.label = "Positive" ↔ 1 / 10 < p)
    ∧ ((buildResponse env).sentiment.label = "Negative" ↔ p < -(1 / 10))
    ∧ ((buildResponse env).sentiment.label = "Neutral" ↔
        (-(1 / 10) ≤ p ∧ p ≤ 1 / 10)) := by
  have hb : (buildResponse env).sentiment = ⟨sentimentLabel p, p⟩ := by
    simp [buildResponse, sentimentPart, h]
  rw [hb]
  exact ⟨rfl, sentimentLabel_spec p⟩

/-- Witness for C2 at polarity one half: score one half, label Positive. -/
theorem sentiment_spec_witness :
    ((buildResponse envHalf).sentiment.score = 1 / 2)
    ∧ ((buildResponse envHalf).sentiment.label = "Positive" ↔ 1 / 10 < (1 / 2 : ℚ))
    ∧ ((buildResponse envHalf).sentiment.label = "Negative" ↔ (1 / 2 : ℚ) < -(1 / 10))
    ∧ ((buildResponse envHalf).sentiment.label = "Neutral" ↔
        (-(1 / 10) ≤ (1 / 2 : ℚ) ∧ (1 / 2 : ℚ) ≤ 1 / 10)) :=
  sentiment_spec envHalf (1 / 2) (by norm_num) (by norm_num) rfl

/-- C9: when the body has a `text` key whose value is not a string, the
response is not a 400 validation error: the `text.strip()` attribute error
propagates to the outermost handler, which answers 500 with the generic
internal-error message. -/
theorem nonstring_text_500 (env : Env) (data : List (String × JVal)) (v : JVal)
    (h : alookup "text" data = some v) (hv : v.isStr = false) :
    analyzeText env (some data)
      = .serverError ("Internal server error: " ++ strNoAttrMsg v)
    ∧ ∀ e, analyzeText env (some data) ≠ .badRequest e := by
  cases data with
  | nil => simp [alookup] at h
  | cons p rest =>
    cases v with
    | jstr s => simp [JVal.isStr] at hv
    | jnum n => simp [analyzeText, h]
    | jbool b => simp [analyzeText, h]
    | jnull => simp [analyzeText, h]

/-- Witness for C9: body `{"text": 5}` gives the 500 with the modelled
AttributeError text, not a 400. -/
theorem nonstring_text_500_witness :
    analyzeText envOk (some [("text", .jnum 5)])
      = .serverError ("Internal server error: " ++ strNoAttrMsg (.jnum 5))
    ∧ ∀ e, analyzeText envOk (some [("text", .jnum 5)]) ≠ .badRequest e :=
  nonstring_text_500 envOk [("text", .jnum 5)] (.jnum 5) (by decide) (by decide)

/-- C4: for every body whose `text` value is a non-blank string, the
endpoint answers 200 with the aggregate result (whose `sentiment`,
`entities`, `emotions` and `summary` fields are always present by
construction of `ResponseData`), and the `warnings` key is present iff at
least one analyzer failed or was disabled. -/
theorem ok_response_warnings (env : Env) (data : List (String × JVal)) (text : String)
    (h : alookup "text" data = some (.jstr text)) (hne : pyStrip text ≠ "") :
    analyzeText env (some data) = .ok (buildResponse env)
    ∧ ((buildResponse env).warnings ≠ none ↔ someIssue env = true) := by
  refine ⟨?_, warnings_iff_someIssue env⟩
  cases data with
  | nil => simp [alookup] at h
  | cons p rest => simp [analyzeText, h, hne]

/-- Witness for C4: all analyzers succeed, so the response is 200 and has no
warnings key. -/
theorem ok_response_warnings_witness :
    analyzeText envOk (some [("text", .jstr "hello")]) = .ok (buildResponse envOk)
    ∧ ((buildResponse envOk).warnings ≠ none ↔ someIssue envOk = true) :=
  ok_response_warnings envOk [("text", .jstr "hello")] "hello" (by decide) (by decide)

/-- C5: with the model loaded, each of the four analyzers that raises is
recorded as a warning and leaves its field at the default, each analyzer
that succeeds contributes its value regardless of the other analyzers'
outcomes, and the request still answers 200 with the partial result. -/
theorem analyzer_isolation (env : Env) (data : List (String × JVal)) (text : String)
    (hna : env.nlpAvailable = true)
    (h : alookup "text" data = some (.jstr text)) (hne : pyStrip text ≠ "") :
    analyzeText env (some data) = .ok (buildResponse env)
    ∧ (∀ e, env.sentimentRes = .error e →
        (buildResponse env).sentiment = ⟨"Unknown", 0⟩
        ∧ ("Sentiment analysis failed: " ++ e) ∈ warningsList env)
    ∧ (∀ p, env.sentimentRes = .ok p →
        (buildResponse env).sentiment = ⟨sentimentLabel p, p⟩)
    ∧ (∀ e, env.nerRes = .error e →
        (buildResponse env).entities = []
        ∧ ("Named Entity Recognition failed: " ++ e) ∈ warningsList env)
    ∧ (∀ es, env.nerRes = .ok es → (buildResponse env).entities = es)
    ∧ (∀ e, env.emotionRes = .error e →
        (buildResponse env).emotions = []
        ∧ ("Emotion analysis failed: " ++ e) ∈ warningsList env)
    ∧ (∀ m, env.emotionRes = .ok m → (buildResponse env).emotions = m)
    ∧ (∀ e, env.sumDocRes = .error e →
        (buildResponse env).summary = ""
        ∧ ("Text summarization failed: " ++ e) ∈ warningsList env)
    ∧ (∀ d, env.sumDocRes = .ok d →
        (buildResponse env).summary = summarize env.stopwords d) := by
  refine ⟨?_, ?_, ?_, ?_, ?_, ?_, ?_, ?_, ?_⟩
  · cases data with
    | nil => simp [alookup] at h
    | cons p rest => simp [analyzeText, h, hne]
  · intro e he
    constructor
    · simp [buildResponse, sentimentPart, he]
    · simp [warningsList, sentimentPart, he]
  · intro p hp
    simp [buildResponse, sentimentPart, hp]
  · intro e he
    constructor
    · simp [buildResponse, nerPart, hna, he]
    · simp [warningsList, nerPart, hna, he]
  · intro es hes
    simp [buildResponse, nerPart, hna, hes]
  · intro e he
    constructor
    · simp [buildResponse, emotionPart, he]
    · simp [warningsList, emotionPart, he]
  · intro m hm
    simp [buildResponse, emotionPart, hm]
  · intro e he
    constructor
    · simp [buildResponse, summaryPart, hna, he]
    · simp [warningsList, summaryPart, hna, he]
  · intro d hd
    simp [buildResponse, summaryPart, hna, hd]

/-- Witness for C5: all four analyzers raise; the request still answers 200,
every field is at its default, and all four warnings are recorded. -/
theorem analyzer_isolation_witness :
    analyzeText envAllFail (some [("text", .jstr "hi")]) = .ok (buildResponse envAllFail)
    ∧ (buildResponse envAllFail).sentiment = ⟨"Unknown", 0⟩
    ∧ ("Sentiment analysis failed: " ++ "sfail") ∈ warningsList envAllFail
    ∧ (buildResponse envAllFail).entities = []
    ∧ ("Named Entity Recognition failed: " ++ "nfail") ∈ warningsList envAllFail
    ∧ (buildResponse envAllFail).emotions = []
    ∧ ("Emotion analysis failed: " ++ "efail") ∈ warningsList envAllFail
    ∧ (buildResponse envAllFail).summary = ""
    ∧ ("Text summarization failed: " ++ "dfail") ∈ warningsList envAllFail := by
  have T := analyzer_isolation envAllFail [("text", .jstr "hi")] "hi" rfl
    (by decide) (by decide)
  exact ⟨T.1, (T.2.1 "sfail" rfl).1, (T.2.1 "sfail" rfl).2,
    (T.2.2.2.1 "nfail" rfl).1, (T.2.2.2.1 "nfail" rfl).2,
    (T.2.2.2.2.2.1 "efail" rfl).1, (T.2.2.2.2.2.1 "efail" rfl).2,
    (T.2.2.2.2.2.2.2.1 "dfail" rfl).1, (T.2.2.2.2.2.2.2.1 "dfail" rfl).2⟩

/-- C6: when the model handle is unavailable, every valid request is
answered 200 with empty `entities`, empty `summary`, and the two
model-unavailable warnings (so the `warnings` key is present). -/
theorem model_unavailable (env : Env) (data : List (String × JVal)) (text : String)
    (hna : env.nlpAvailable = false)
    (h : alookup "text" data = some (.jstr text)) (hne : pyStrip text ≠ "") :
    analyzeText env (some data) = .ok (buildResponse env)
    ∧ (buildResponse env).entities = []
    ∧ (buildResponse env).summary = ""
    ∧ "spaCy model not available - NER disabled" ∈ warningsList env
    ∧ "spaCy model not available - summarization disabled" ∈ warningsList env
    ∧ (buildResponse env).warnings = some (warningsList env) := by
  refine ⟨?_, ?_, ?_, ?_, ?_, ?_⟩
  · cases data with
    | nil => simp [alookup] at h
    | cons p rest => simp [analyzeText, h, hne]
  · simp [buildResponse, nerPart, hna]
  · simp [buildResponse, summaryPart, hna]
  · simp [warningsList, nerPart, hna]
  · simp [warningsList, summaryPart, hna]
  · have hcontains : "spaCy model not available - NER disabled" ∈ warningsList env := by
      simp [warningsList, nerPart, hna]
    have hne2 : warningsList env ≠ [] := by
      intro hnil
      rw [hnil] at hcontains
      simp at hcontains
    simp [buildResponse, hne2]

/-- Witness for C6: a concrete request against the model-less
environment. -/
theorem model_unavailable_witness :
    analyzeText envNoModel (some [("text", .jstr "hi")]) = .ok (buildResponse envNoModel)
    ∧ (buildResponse envNoModel).entities = []
    ∧ (buildResponse envNoModel).summary = ""
    ∧ "spaCy model not available - NER disabled" ∈ warningsList envNoModel
    ∧ "spaCy model not available - summarization disabled" ∈ warningsList envNoModel
    ∧ (buildResponse envNoModel).warnings = some (warningsList envNoModel) :=
  model_unavailable envNoModel [("text", .jstr "hi")] "hi" rfl (by decide) (by decide)

/-! ## Selection lemmas -/

theorem mem_selectedScores {st : List String} {doc : List Sentence} {p : Nat × ℚ}
    (h : p ∈ selectedScores st doc) : p.1 < doc.length := by
  have h1 : p ∈ sortDesc (sentenceScores st doc) := List.mem_of_mem_take h
  have h2 : p ∈ sentenceScores st doc := (sortDesc_perm _).mem_iff.1 h1
  have h3 := mem_scoresFrom (f := normFreqs st doc) h2
  omega

theorem selectedIndices_nodup (st : List String) (doc : List Sentence) :
    (selectedIndices st doc).Nodup := by
  have hpw : (sentenceScores st doc).Pairwise (fun a b => a.1 < b.1) :=
    pairwise_scoresFrom (normFreqs st doc) doc 0
  have hnd : ((sentenceScores st doc).map Prod.fst).Nodup :=
    hpw.map Prod.fst (fun a b hab => Nat.ne_of_lt hab)
  have hnd2 : ((sortDesc (sentenceScores st doc)).map Prod.fst).Nodup :=
    (((sortDesc_perm (sentenceScores st doc)).map Prod.fst).nodup_iff).2 hnd
  have hsub : (selectedIndices st doc).Sublist
      ((sortDesc (sentenceScores st doc)).map Prod.fst) := by
    rw [selectedIndices, selectedScores, List.map_take]
    exact List.take_sublist _ _
  exact hnd2.sublist hsub

theorem selectedScores_sorted (st : List String) (doc : List Sentence) :
    (selectedScores st doc).Pairwise (fun a b => b.2 ≤ a.2) :=
  List.Pairwise.sublist (List.take_sublist _ _) (sortDesc_sorted (sentenceScores st doc))

/-- Counterexample to C3: a one-sentence document whose only word is a stop
word.  `select_length` is `max(1, floor(1 * 0.3)) = 1`, but `sentence_scores`
is empty, so `nlargest` selects nothing and the summary has zero sentences,
not one. -/
theorem summary_count_cex :
    stopOnlyDoc.length = 1
    ∧ selectLength stopOnlyDoc.length = 1
    ∧ (selectedIndices ["the"] stopOnlyDoc).length = 0
    ∧ (selectedIndices ["the"] stopOnlyDoc).length ≠ selectLength stopOnlyDoc.length
    ∧ summarize ["the"] stopOnlyDoc = "" := by decide

/-- C3 as amended: the number of sentences selected into the summary is
`max(1, floor(sentence_count * 0.3))` capped by the number of sentences that
received a score at all (`nlargest` cannot return more elements than its
input has). -/
theorem summary_count_amended (st : List String) (doc : List Sentence) :
    (selectedIndices st doc).length
      = min (selectLength doc.length) (sentenceScores st doc).length := by
  rw [selectedIndices, List.length_map, selectedScores, List.length_take,
    length_sortDesc]

/-- C10: the number of selected sentences is `max(1, floor(n * 0.3))` capped
by the number of sentences containing at least one frequency-table word, and
when no sentence scores the summary is the empty string. -/
theorem summary_count_scored (st : List String) (doc : List Sentence) :
    (selectedIndices st doc).length
      = min (selectLength doc.length)
          ((doc.filter (fun s => scoringSentence (normFreqs st doc) s)).length)
    ∧ (sentenceScores st doc = [] → summarize st doc = "") := by
  constructor
  · rw [selectedIndices, List.length_map, selectedScores, List.length_take,
      length_sortDesc, sentenceScores, length_scoresFrom,
      List.countP_eq_length_filter]
  · intro hempty
    rw [summarize, selectedIndices, selectedScores, hempty]
    simp [sortDesc, joinSep]

/-- Witness for C10 at the all-stop-word document: one sentence, no scored
sentence, empty summary. -/
theorem summary_count_scored_witness :
    (selectedIndices ["the"] stopOnlyDoc).length
      = min (selectLength stopOnlyDoc.length)
          ((stopOnlyDoc.filter
            (fun s => scoringSentence (normFreqs ["the"] stopOnlyDoc) s)).length)
    ∧ summarize ["the"] stopOnlyDoc = "" :=
  ⟨(summary_count_scored ["the"] stopOnlyDoc).1,
   (summary_count_scored ["the"] stopOnlyDoc).2 (by decide)⟩

/-- Counterexample to C7: the tokens `Apple` and `apple` differ only in
letter case, yet the frequency table gives each its own entry with count 1
instead of incrementing a shared entry to 2. -/
theorem case_key_cex :
    strLower "Apple" = strLower "apple"
    ∧ wordFrequencies [] twoCaseDoc = [("Apple", 1), ("apple", 1)]
    ∧ alookup "Apple" (wordFrequencies [] twoCaseDoc) = some 1
    ∧ alookup "Apple" (wordFrequencies [] twoCaseDoc) ≠ some 2 := by decide

/-- C7 as amended: the frequency table is keyed by the token's exact surface
form and counts case-sensitively — a key's count is the number of tokens
exactly equal to it among the tokens surviving the filter — while only the
stop-word/punctuation filter works on the lowercased token. -/
theorem word_count_exact_case (st : List String) (doc : List Sentence) (w : String) :
    alookup w (wordFrequencies st doc)
      = if keepWord st w = true then
          (if ((allToks doc).filter (keepWord st)).count w = 0 then none
           else some (((allToks doc).filter (keepWord st)).count w))
        else none := by
  have h := wf_fold_alookup st w (allToks doc) []
  rw [wordFrequencies, h]
  rfl

/-- Counterexample to C8: in `docSeven` the last sentence G outscores the
first sentence A, `nlargest` returns `[G, A]`, and the summary `G A` is not
the space-join of any in-order subsequence of the document's sentences. -/
theorem summary_order_cex :
    summarize [] docSeven = "G A"
    ∧ ¬ ∃ sub : List String, sub.Sublist (docSeven.map Sentence.text)
        ∧ summarize [] docSeven = joinSep " " sub := by
  have h1 : summarize [] docSeven = "G A" := by decide
  refine ⟨h1, ?_⟩
  rintro ⟨sub, hsub, hjoin⟩
  have hmem : sub ∈ (docSeven.map Sentence.text).sublists := List.mem_sublists.2 hsub
  have hmap : joinSep " " sub ∈ ((docSeven.map Sentence.text).sublists).map (joinSep " ") :=
    List.mem_map_of_mem _ hmem
  rw [← hjoin, h1] at hmap
  have habs : ("G A" : String)
      ∉ ((docSeven.map Sentence.text).sublists).map (joinSep " ") := by decide
  exact habs hmap

/-- C8 as amended: the summary is the space-join of the selected sentences
in the order `nlargest` returns them — pairwise-distinct valid document
positions sorted by non-increasing score (document order only among equal
scores) — not necessarily in original document order. -/
theorem summary_selection_order (st : List String) (doc : List Sentence) :
    summarize st doc
      = joinSep " " ((selectedIndices st doc).map
          (fun i => (doc.getD i defaultSentence).text))
    ∧ (∀ i ∈ selectedIndices st doc, i < doc.length)
    ∧ (selectedIndices st doc).Nodup
    ∧ (selectedScores st doc).Pairwise (fun a b => b.2 ≤ a.2) := by
  refine ⟨rfl, ?_, selectedIndices_nodup st doc, selectedScores_sorted st doc⟩
  intro i hi
  rcases List.mem_map.1 hi with ⟨p, hp, rfl⟩
  exact mem_selectedScores hp

/-- Witness for C8's amended statement at `docSeven`: the selected position
6 is in range, and the selection is duplicate-free and sorted. -/
theorem summary_selection_order_witness :
    (6 < docSeven.length)
    ∧ (selectedIndices [] docSeven).Nodup
    ∧ (selectedScores [] docSeven).Pairwise (fun a b => b.2 ≤ a.2) :=
  ⟨(summary_selection_order [] docSeven).2.1 6 (by decide),
   (summary_selection_order [] docSeven).2.2.1,
   (summary_selection_order [] docSeven).2.2.2⟩
